import Mathlib

/-!
Shallow embedding of `src/src/main.rs` (the morpho-monitor reth execution
extension): the ledger store (four SQLite relations), the reconciler loop
`morpho_monitor`, the event decoder `decode_chain_events`, and the risk
engine `calculate_position_metrics` / `check_positions`.

Modelling conventions:
* SQLite TEXT columns holding decimal integer strings that are only ever
  read back through `CAST(... AS INTEGER)` arithmetic are modelled as `Int`
  (the stored text is always the canonical decimal rendering; SQLite's
  saturation of `CAST` at 64 bits is outside the magnitudes exercised here).
* Rust `f64` arithmetic is modelled by an executable IEEE-754 binary64
  value type `F64` (round to nearest, ties to even), exact for the exponent
  range reachable from u128-sized inputs (no overflow to infinity and no
  subnormals can occur there).
* rusqlite autocommits each `execute` call: there is no transaction in the
  source, so each SQL statement is modelled as an individually persisted
  state update, and an error simply stops the current notification with the
  statements already executed left in place.
-/

set_option maxRecDepth 100000

deriving instance DecidableEq for Except

/- ## An executable model of nonnegative IEEE-754 binary64 values -/

/-- Nonnegative binary64 values: `nan`, `+inf`, or a finite `m * 2^e`
(with `2^52 ≤ m < 2^53` unless the value is `fin 0 0`, i.e. `+0.0`).
Negative values never arise in the source's float computation, whose
inputs are u128 casts. -/
inductive F64 where
  | nan : F64
  | inf : F64
  | fin : Nat → Int → F64
deriving DecidableEq, Repr

/-- Fueled floor-log2 helper; the fuel bounds the recursion depth. -/
def natLog2A : Nat → Nat → Nat
  | 0, _ => 0
  | f + 1, n => if 2 ≤ n then natLog2A f (n / 2) + 1 else 0

/-- `floor (log2 n)` for `0 < n < 2^600` (ample for every quantity here). -/
def natLog2 (n : Nat) : Nat := natLog2A 600 n

/-- Decides `2^e ≤ p / q` (for positive `p`, `q`), i.e. `q * 2^e ≤ p`. -/
def pow2Le (p q : Nat) (e : Int) : Bool :=
  if 0 ≤ e then q * 2 ^ e.toNat ≤ p else q ≤ p * 2 ^ (-e).toNat

/-- The floor of `log2 (p / q)` for positive `p`, `q`. -/
def ratFloorLog2 (p q : Nat) : Int :=
  let d : Int := (natLog2 p : Int) - (natLog2 q : Int)
  if pow2Le p q d then d else d - 1

/-- Round the positive rational `p / q` to a binary64 value
(round to nearest, ties to even). -/
def roundPosRat (p q : Nat) : F64 :=
  let e := ratFloorLog2 p q
  let s := e - 52
  let n := if 0 ≤ s then p else p * 2 ^ (-s).toNat
  let d := if 0 ≤ s then q * 2 ^ s.toNat else q
  let m0 := n / d
  let r := n % d
  let m := if d < 2 * r || (d == 2 * r && m0 % 2 == 1) then m0 + 1 else m0
  if m == 2 ^ 53 then F64.fin (2 ^ 52) (s + 1) else F64.fin m s

/-- Rust's `x as f64` for an unsigned integer: round to nearest, ties to even. -/
def F64.ofNat (n : Nat) : F64 :=
  if n == 0 then F64.fin 0 0 else roundPosRat n 1

/-- Scale a finite value by `2^d` (exact; used to recombine exponents). -/
def F64.shiftE : F64 → Int → F64
  | F64.fin m e, d => F64.fin m (e + d)
  | x, _ => x

/-- binary64 multiplication on nonnegative values. -/
def F64.mul : F64 → F64 → F64
  | F64.nan, _ => F64.nan
  | _, F64.nan => F64.nan
  | F64.inf, F64.inf => F64.inf
  | F64.inf, F64.fin m _ => if m == 0 then F64.nan else F64.inf
  | F64.fin m _, F64.inf => if m == 0 then F64.nan else F64.inf
  | F64.fin m1 e1, F64.fin m2 e2 =>
    if m1 == 0 || m2 == 0 then F64.fin 0 0
    else (roundPosRat (m1 * m2) 1).shiftE (e1 + e2)

/-- binary64 division on nonnegative values (`x / 0` is `inf` for `x > 0`,
`0 / 0` is `nan`). -/
def F64.div : F64 → F64 → F64
  | F64.nan, _ => F64.nan
  | _, F64.nan => F64.nan
  | F64.inf, F64.inf => F64.nan
  | F64.inf, F64.fin _ _ => F64.inf
  | F64.fin _ _, F64.inf => F64.fin 0 0
  | F64.fin m1 e1, F64.fin m2 e2 =>
    if m2 == 0 then (if m1 == 0 then F64.nan else F64.inf)
    else if m1 == 0 then F64.fin 0 0
    else (roundPosRat m1 m2).shiftE (e1 - e2)

/-- binary64 `>=` on nonnegative values (`false` whenever `nan` is involved). -/
def F64.ge : F64 → F64 → Bool
  | F64.nan, _ => false
  | _, F64.nan => false
  | F64.inf, _ => true
  | F64.fin _ _, F64.inf => false
  | F64.fin m1 e1, F64.fin m2 e2 =>
    let s := min e1 e2
    m2 * 2 ^ (e2 - s).toNat ≤ m1 * 2 ^ (e1 - s).toNat

/-- The exact rational value of a finite `F64` (0 for `nan`/`inf`;
used only to compare finite results against exact arithmetic). -/
def F64.toRat : F64 → ℚ
  | F64.fin m e =>
    if 0 ≤ e then (m : ℚ) * (2 : ℚ) ^ e.toNat else (m : ℚ) / (2 : ℚ) ^ (-e).toNat
  | _ => 0

/- ## Constants of the risk engine (main.rs lines 312-315) -/

/-- `WARNING_THRESHOLD: f64 = 0.95` — the binary64 value of the literal. -/
def WARNING_THRESHOLD : F64 := roundPosRat 19 20

/-- `HIGH_RISK_THRESHOLD: f64 = 0.98` — the binary64 value of the literal. -/
def HIGH_RISK_THRESHOLD : F64 := roundPosRat 49 50

def WAD : Nat := 1000000000000000000

def ORACLE_PRICE_SCALE : Nat := 1000000000000000000000000000000000000

/- ## Rust `str::parse::<u128>` -/

/-- Rust `s.parse::<u128>()`: an optional leading `+`, then one or more
ASCII digits, value below `2^128`; anything else is an error. -/
def parseU128 (s : String) : Option Nat :=
  let cs := match s.data with
    | '+' :: rest => rest
    | cs => cs
  if cs.isEmpty then none
  else if cs.all Char.isDigit then
    let v := cs.foldl (fun a c => a * 10 + (c.toNat - 48)) 0
    if v < 2 ^ 128 then some v else none
  else none

/- ## `calculate_position_metrics` (main.rs lines 317-349) -/

/-- `calculate_position_metrics`: parse the six decimal strings as u128
(any parse failure is an error), then compute in `f64`:
`borrowed = (borrow_shares * total_borrow_assets) / total_borrow_shares`,
`collateral_value = (collateral * price) / ORACLE_PRICE_SCALE`,
`max_borrow = (collateral_value * lltv) / WAD`, returning
`(max_borrow >= borrowed, borrowed / collateral_value)`. -/
def calculate_position_metrics (borrow_shares total_borrow_assets
    total_borrow_shares collateral price lltv : String) :
    Except Unit (Bool × F64) := do
  let bs ← (parseU128 borrow_shares).elim (Except.error ()) Except.ok
  let tba ← (parseU128 total_borrow_assets).elim (Except.error ()) Except.ok
  let tbs ← (parseU128 total_borrow_shares).elim (Except.error ()) Except.ok
  let c ← (parseU128 collateral).elim (Except.error ()) Except.ok
  let p ← (parseU128 price).elim (Except.error ()) Except.ok
  let l ← (parseU128 lltv).elim (Except.error ()) Except.ok
  let borrowed := ((F64.ofNat bs).mul (F64.ofNat tba)).div (F64.ofNat tbs)
  let collateral_value := ((F64.ofNat c).mul (F64.ofNat p)).div (F64.ofNat ORACLE_PRICE_SCALE)
  let max_borrow := (collateral_value.mul (F64.ofNat l)).div (F64.ofNat WAD)
  Except.ok (max_borrow.ge borrowed, borrowed.div collateral_value)

/- ## The ledger store: the four SQLite relations (main.rs lines 26-83) -/

/-- A row of `markets` (all numeric columns are TEXT in the schema;
`lltv`, `total_borrow_assets`, `total_borrow_shares` are only ever read
back as strings by the risk query, so they stay `String` here). -/
structure MarketRow where
  id : String
  loan_token : String
  collateral_token : String
  oracle : String
  irm : String
  lltv : String
  total_borrow_assets : String
  total_borrow_shares : String
  last_update : Nat
deriving DecidableEq, Repr

/-- A row of `positions`. `borrow_shares` and `collateral` are TEXT
columns mutated through `CAST(... AS INTEGER) ± ?`, so they are modelled
as `Int` (the text is the canonical decimal rendering of that integer). -/
structure PositionRow where
  market_id : String
  borrower : String
  borrow_shares : Int
  collateral : Int
  last_updated : Nat
deriving DecidableEq, Repr

/-- A row of `oracle_prices` (written only by an external collaborator). -/
structure OraclePriceRow where
  oracle_address : String
  price : String
  block_number : Nat
  timestamp : Nat
deriving DecidableEq, Repr

/-- A row of `market_states` (the accrual-snapshot relation). -/
structure MarketStateRow where
  market_id : String
  total_borrow_assets : String
  total_borrow_shares : String
  log_index : Nat
  block_number : Nat
  timestamp : Nat
deriving DecidableEq, Repr

structure DB where
  markets : List MarketRow
  positions : List PositionRow
  oracle_prices : List OraclePriceRow
  market_states : List MarketStateRow
deriving DecidableEq, Repr

def emptyDB : DB := ⟨[], [], [], []⟩

/-- The only storage error the source can hit on its own statements:
a primary-key violation on a plain `INSERT`. -/
inductive SqlError where
  | duplicateKey : SqlError
deriving DecidableEq, Repr

/-- `INSERT INTO markets VALUES (...)`: fails on duplicate `id` (PK). -/
def insertMarket (db : DB) (r : MarketRow) : Except SqlError DB :=
  if db.markets.any (fun m => m.id == r.id) then Except.error SqlError.duplicateKey
  else Except.ok { db with markets := db.markets ++ [r] }

/-- `INSERT INTO market_states VALUES (...)`: fails on duplicate
`(market_id, block_number, log_index)` (PK). -/
def insertMarketState (db : DB) (r : MarketStateRow) : Except SqlError DB :=
  if db.market_states.any (fun s =>
      s.market_id == r.market_id && s.block_number == r.block_number
        && s.log_index == r.log_index) then
    Except.error SqlError.duplicateKey
  else Except.ok { db with market_states := db.market_states ++ [r] }

/-- `INSERT INTO positions ... ON CONFLICT(market_id, borrower) DO UPDATE`:
if the row is absent, insert it with the given literal values; otherwise
apply the deltas of the UPDATE clause (a clause that does not mention a
column has delta 0) and refresh `last_updated`. -/
def upsertPosition (db : DB) (mid bor : String) (insShares insColl : Int)
    (dShares dColl : Int) (ts : Nat) : DB :=
  if db.positions.any (fun p => p.market_id == mid && p.borrower == bor) then
    { db with positions := db.positions.map (fun p =>
        if p.market_id == mid && p.borrower == bor then
          { p with borrow_shares := p.borrow_shares + dShares,
                   collateral := p.collateral + dColl,
                   last_updated := ts }
        else p) }
  else
    { db with positions := db.positions ++ [⟨mid, bor, insShares, insColl, ts⟩] }

/- ## Decoded Morpho events (the `sol!`-generated `MorphoEvents` variants
the reconciler matches on; numeric fields are U256 values, kept as `Nat`) -/

inductive MorphoEvent where
  | createMarket (id loanToken collateralToken oracle irm : String) (lltv : Nat)
  | supplyCollateral (id onBehalf : String) (assets : Nat)
  | borrow (id onBehalf : String) (assets shares : Nat)
  | repay (id onBehalf : String) (assets shares : Nat)
  | withdrawCollateral (id onBehalf : String) (assets : Nat)
  | accrueInterest (id : String) (interest : Nat)
  | liquidate (id borrower : String)
      (repaidAssets repaidShares seizedAssets badDebtShares : Nat)
  | otherEvent
deriving DecidableEq, Repr

/- ## Event decoder (`decode_chain_events`, main.rs lines 277-310) -/

/-- A raw receipt log: its emitting address, and the decoded Morpho event
when the log matches a known ABI signature (`none` models a log that
fails to decode and is silently dropped). -/
structure RawLog where
  address : String
  event : Option MorphoEvent
deriving DecidableEq, Repr

/-- A transaction receipt: its ordered logs. -/
structure Receipt where
  logs : List RawLog
deriving DecidableEq, Repr

/-- A sealed block: number, timestamp, and the receipts of its
transactions in order (the zipped transaction values themselves are
never used by the reconciler, so they are not modelled). -/
structure Block where
  number : Nat
  timestamp : Nat
  receipts : List Receipt
deriving DecidableEq, Repr

def MORPHO_ADDRESS : String := "0xBBBBBbbBBb9cC5e90e3b3Af64bdAF62C37EEFFCb"

/-- Per receipt: `logs.iter().enumerate().filter(address == MORPHO)` then
`filter_map(decode)` — note the log index is the position within this
receipt's log list, restarting at 0 for every transaction. -/
def decodeReceiptEvents (r : Receipt) : List (Nat × MorphoEvent) :=
  (r.logs.enum.filter (fun x => x.2.address == MORPHO_ADDRESS)).filterMap
    (fun x => x.2.event.map (fun e => (x.1, e)))

/-- `decode_chain_events`: blocks in chain order, and within a block the
receipts of its transactions in order. -/
def decode_chain_events (blocks : List Block) : List (Block × Nat × MorphoEvent) :=
  blocks.flatMap (fun b =>
    (b.receipts.flatMap decodeReceiptEvents).map (fun p => (b, p.1, p.2)))

/- ## The reconciler event arms (main.rs lines 115-265) -/

/-- Apply one decoded event's SQL statements. Each `connection.execute`
autocommits, so the returned `DB` always reflects the statements that ran
before any error (the `?` operator stops at the first failing one). -/
def applyEvent (db : DB) (blockNumber ts logIdx : Nat) :
    MorphoEvent → DB × Option SqlError
  | MorphoEvent.createMarket id lt ct orc irm lltv =>
    match insertMarket db ⟨id, lt, ct, orc, irm, toString lltv, "0", "0", ts⟩ with
    | Except.ok db' => (db', none)
    | Except.error e => (db, some e)
  | MorphoEvent.supplyCollateral id ob assets =>
    (upsertPosition db id ob 0 (assets : Int) 0 (assets : Int) ts, none)
  | MorphoEvent.borrow id ob assets shares =>
    let db1 := upsertPosition db id ob (shares : Int) 0 (shares : Int) 0 ts
    match insertMarketState db1
        ⟨id, toString assets, toString shares, logIdx, blockNumber, ts⟩ with
    | Except.ok db2 => (db2, none)
    | Except.error e => (db1, some e)
  | MorphoEvent.repay id ob _assets shares =>
    (upsertPosition db id ob 0 0 (-(shares : Int)) 0 ts, none)
  | MorphoEvent.withdrawCollateral id ob assets =>
    (upsertPosition db id ob 0 0 0 (-(assets : Int)) ts, none)
  | MorphoEvent.accrueInterest id interest =>
    match insertMarketState db
        ⟨id, toString interest, "0", logIdx, blockNumber, ts⟩ with
    | Except.ok db' => (db', none)
    | Except.error e => (db, some e)
  | MorphoEvent.liquidate id bor _repaidAssets repaidShares seizedAssets badDebtShares =>
    (upsertPosition db id bor 0 0
      (-(repaidShares : Int) - (badDebtShares : Int)) (-(seizedAssets : Int)) ts, none)
  | MorphoEvent.otherEvent => (db, none)

/-- The commit loop over decoded events: stop at the first error, keeping
the statements already executed (there is no surrounding transaction). -/
def applyEvents (db : DB) : List (Block × Nat × MorphoEvent) → DB × Option SqlError
  | [] => (db, none)
  | (b, idx, ev) :: rest =>
    match applyEvent db b.number b.timestamp idx ev with
    | (db', none) => applyEvents db' rest
    | (db', some e) => (db', some e)

/- ## Revert handling (main.rs lines 91-110) -/

/-- The three DELETEs of the reverted-chain branch. Note the `positions`
DELETE compares the `last_updated` column — a block *timestamp* — against
the reverted range's starting block *number*. -/
def revertFrom (db : DB) (startBlock : Nat) : DB :=
  { db with
    positions := db.positions.filter (fun p => p.last_updated < startBlock),
    market_states := db.market_states.filter (fun s => s.block_number < startBlock),
    oracle_prices := db.oracle_prices.filter (fun o => o.block_number < startBlock) }

/- ## Risk engine query and classification (`check_positions`, main.rs 351-436) -/

inductive RiskClass where
  | liquidatable : RiskClass
  | highRisk : RiskClass
  | warning : RiskClass
deriving DecidableEq, Repr

/-- The SELECT join for one block number: positions joined to their market
and to the market oracle's price row at that block, keeping rows with
`borrow_shares > 0 AND collateral > 0`. (The comparison columns have TEXT
affinity, so SQLite compares them as text against the literal converted to
text; for canonical decimal renderings of integers that coincides with the
numeric comparison modelled here.) -/
def joinRows (db : DB) (blockNum : Nat) :
    List (PositionRow × MarketRow × OraclePriceRow) :=
  db.positions.flatMap (fun p =>
    db.markets.flatMap (fun m =>
      db.oracle_prices.filterMap (fun op =>
        if p.market_id == m.id && m.oracle == op.oracle_address
            && p.borrow_shares > 0 && p.collateral > 0
            && op.block_number == blockNum
        then some (p, m, op) else none)))

/-- The metrics call for one joined row, with the column values rendered
back to the decimal text the query returns. -/
def rowMetrics (r : PositionRow × MarketRow × OraclePriceRow) :
    Except Unit (Bool × F64) :=
  calculate_position_metrics (toString r.1.borrow_shares)
    r.2.1.total_borrow_assets r.2.1.total_borrow_shares
    (toString r.1.collateral) r.2.2.price r.2.1.lltv

/-- The classification branches: liquidatable if not healthy, else the two
threshold checks; a healthy position below both thresholds emits nothing. -/
def classifyMetrics (isHealthy : Bool) (ltvRatio : F64) : Option RiskClass :=
  if !isHealthy then some RiskClass.liquidatable
  else if ltvRatio.ge HIGH_RISK_THRESHOLD then some RiskClass.highRisk
  else if ltvRatio.ge WARNING_THRESHOLD then some RiskClass.warning
  else none

/-- One joined row's emitted record: `if let Ok(..) = calculate_position_metrics`
silently drops a metrics error, otherwise the classification branches run. -/
def rowClassify (r : PositionRow × MarketRow × OraclePriceRow) :
    Option (String × String × RiskClass) :=
  match rowMetrics r with
  | Except.error _ => none
  | Except.ok (isHealthy, ltvRatio) =>
    (classifyMetrics isHealthy ltvRatio).map (fun c => (r.1.market_id, r.1.borrower, c))

/-- `check_positions`: for each block of the committed chain, run the join
at that block number and emit the classification records. It has no error
path of its own beyond row retrieval, which always succeeds here. -/
def check_positions (db : DB) (blocks : List Block) :
    List (String × String × RiskClass) :=
  blocks.flatMap (fun b => (joinRows db b.number).filterMap rowClassify)

/- ## The notification loop (`morpho_monitor`, main.rs lines 85-275) -/

/-- One stream notification: an optional reverted range (its starting
block number is all the code uses) and an optional committed chain. -/
structure Notification where
  revertedFrom : Option Nat
  committed : Option (List Block)
deriving DecidableEq, Repr

structure StepResult where
  db : DB
  err : Option SqlError
  emitted : List (String × String × RiskClass)
  ack : Option Nat
deriving DecidableEq, Repr

/-- One iteration of the `while let` loop: handle the reverted chain, then
the committed chain; on a statement error the `?` operator exits before
`check_positions` and before the `FinishedHeight` acknowledgment. -/
def processNotification (db : DB) (n : Notification) : StepResult :=
  let db0 := match n.revertedFrom with
    | some startBlock => revertFrom db startBlock
    | none => db
  match n.committed with
  | none => ⟨db0, none, [], none⟩
  | some blocks =>
    match applyEvents db0 (decode_chain_events blocks) with
    | (db1, some e) => ⟨db1, some e, [], none⟩
    | (db1, none) =>
      ⟨db1, none, check_positions db1 blocks, (blocks.getLast?).map Block.number⟩

/-- Run a sequence of notifications; an error ends the loop (the `?`
operator propagates out of `morpho_monitor`). -/
def runNotifications (db : DB) : List Notification → DB × Option SqlError
  | [] => (db, none)
  | n :: rest =>
    let r := processNotification db n
    match r.err with
    | some e => (r.db, some e)
    | none => runNotifications r.db rest

/- ## The spec's exact-arithmetic reading of the risk formula -/

/-- The spec's ltv formula (section 4.4) evaluated in exact rational
arithmetic, as the spec's "fixed-point arithmetic ... arbitrary-precision"
wording requires; stated here only to compare against the source's `f64`
computation. -/
def specExactLtv (borrowShares totalBorrowAssets totalBorrowShares
    collateral price : Nat) : ℚ :=
  (((borrowShares : ℚ) * (totalBorrowAssets : ℚ)) / (totalBorrowShares : ℚ)) /
    (((collateral : ℚ) * (price : ℚ)) / ((ORACLE_PRICE_SCALE : Nat) : ℚ))

/- ## Concrete scenarios used by the claims -/

/-- A receipt log emitted by the monitored Morpho contract. -/
def mLog (e : MorphoEvent) : RawLog := ⟨MORPHO_ADDRESS, some e⟩

/-- The spec scenario block: CreateMarket(M1, lltv 0.8e18) then
SupplyCollateral(M1, B1, 1000) then Borrow(M1, B1, 500, 500), one
transaction at block 10. -/
def scenarioBlock : Block :=
  ⟨10, 1700000000,
    [⟨[mLog (MorphoEvent.createMarket "M1" "LT" "CT" "O1" "IRM" 800000000000000000),
       mLog (MorphoEvent.supplyCollateral "M1" "B1" 1000),
       mLog (MorphoEvent.borrow "M1" "B1" 500 500)]⟩]⟩

def c1Step : StepResult := processNotification emptyDB ⟨none, some [scenarioBlock]⟩

def c2Block5 : Block :=
  ⟨5, 1000,
    [⟨[mLog (MorphoEvent.createMarket "M1" "LT" "CT" "O1" "IRM" 800000000000000000),
       mLog (MorphoEvent.supplyCollateral "M1" "B1" 1000)]⟩]⟩

/-- Ledger after committing block 5, plus an externally ingested price
observation at block 5 (oracle rows are written by the external
collaborator, never by this core). -/
def c2Before : DB :=
  let r := processNotification emptyDB ⟨none, some [c2Block5]⟩
  { r.db with oracle_prices := [⟨"O1", "1000000000000000000000000000000000000", 5, 995⟩] }

def c2After : DB := (processNotification c2Before ⟨some 10, none⟩).db

def c3B10 : Block := ⟨10, 1100, [⟨[mLog (MorphoEvent.borrow "M1" "B1" 500 500)]⟩]⟩

/-- Commit 5, commit 10, revert from 10, recommit the identical block 10. -/
def c3Reorg : DB × Option SqlError :=
  runNotifications emptyDB
    [⟨none, some [c2Block5]⟩, ⟨none, some [c3B10]⟩, ⟨some 10, none⟩,
     ⟨none, some [c3B10]⟩]

/-- Commit 5 then commit 10, never having seen the reverted copy. -/
def c3Direct : DB × Option SqlError :=
  runNotifications emptyDB [⟨none, some [c2Block5]⟩, ⟨none, some [c3B10]⟩]

/-- Borrow 5 shares, then repay 10 shares, in one block. -/
def c4Block : Block :=
  ⟨5, 1000, [⟨[mLog (MorphoEvent.borrow "M1" "B1" 5 5),
               mLog (MorphoEvent.repay "M1" "B1" 10 10)]⟩]⟩

def c4Step : StepResult := processNotification emptyDB ⟨none, some [c4Block]⟩

def c5BlockA : Block :=
  ⟨5, 1000, [⟨[mLog (MorphoEvent.createMarket "M1" "LT" "CT" "O1" "IRM" 800000000000000000)]⟩]⟩

/-- A block whose second event fails (duplicate CreateMarket) after its
first event's statement has already been executed. -/
def c5BlockB : Block :=
  ⟨6, 1060, [⟨[mLog (MorphoEvent.supplyCollateral "M1" "B1" 1000),
               mLog (MorphoEvent.createMarket "M1" "LT" "CT" "O1" "IRM" 800000000000000000)]⟩]⟩

def c5Setup : StepResult := processNotification emptyDB ⟨none, some [c5BlockA]⟩
def c5Fail : StepResult := processNotification c5Setup.db ⟨none, some [c5BlockB]⟩
def c5Retry : StepResult := processNotification c5Fail.db ⟨none, some [c5BlockB]⟩

/-- A ledger whose market M1 has `total_borrow_shares = "0"` and a live
position, with a price observation at block 10. -/
def c6DB : DB :=
  ⟨[⟨"M1", "LT", "CT", "O1", "IRM", "800000000000000000", "500", "0", 900⟩],
   [⟨"M1", "B1", 500, 1000, 900⟩],
   [⟨"O1", "1000000000000000000000000000000000000", 10, 998⟩],
   []⟩

def c6Block : Block := ⟨10, 1000, []⟩

/-- The spec scenario with the price observation present before the
commit arrives: oracle O1 at block 10 with price `1e36`. -/
def c8Start : DB :=
  { emptyDB with
    oracle_prices := [⟨"O1", "1000000000000000000000000000000000000", 10, 1690000000⟩] }

def c8Step : StepResult := processNotification c8Start ⟨none, some [scenarioBlock]⟩

/-- One block, two transactions, each with a Morpho Borrow log at
receipt-log index 0 for the same market. -/
def c9Block : Block :=
  ⟨7, 1300, [⟨[mLog (MorphoEvent.borrow "M1" "B1" 100 100)]⟩,
             ⟨[mLog (MorphoEvent.borrow "M1" "B2" 200 200)]⟩]⟩

def c9Step : StepResult := processNotification emptyDB ⟨none, some [c9Block]⟩

/-- A joined row whose market `total_borrow_assets` text is `2^128`
(one past `u128::MAX`), so the u128 parse in the metrics function fails. -/
def c10Row : PositionRow × MarketRow × OraclePriceRow :=
  (⟨"M1", "B1", 500, 1000, 900⟩,
   ⟨"M1", "LT", "CT", "O1", "IRM", "800000000000000000",
    "340282366920938463463374607431768211456", "500", 900⟩,
   ⟨"O1", "1000000000000000000000000000000000000", 10, 998⟩)

/- ## Claims -/

/-- C1: after CreateMarket(M1, lltv 8e17), SupplyCollateral(M1, B1, 1000),
Borrow(M1, B1, assets 500, shares 500) on an empty ledger, the position row
does hold collateral 1000 and borrow_shares 500 — but the Borrow arm never
touches the markets row's aggregate totals: market M1 still carries
total_borrow_assets = "0" and total_borrow_shares = "0" (the per-event
amounts go only into the market_states relation), refuting the claim that
Borrow updates the market's running aggregates to 500/500. -/
theorem c1_borrow_never_updates_market_totals :
    c1Step.err = none ∧
    c1Step.db.positions.map
        (fun p => (p.market_id, p.borrower, p.borrow_shares, p.collateral))
      = [("M1", "B1", (500 : Int), (1000 : Int))] ∧
    c1Step.db.markets.map
        (fun m => (m.id, m.total_borrow_assets, m.total_borrow_shares))
      = [("M1", "0", "0")] := by decide

/-- C2: a revert whose range starts at block 10 deletes the position row
that was created at block 5 (its block stamp 5 is below 10), because the
positions DELETE compares the `last_updated` timestamp column (1000 here)
against the starting block number: the store is not restored to its
pre-block-10 state. Market rows are indeed untouched and the price row at
block 5 survives, but the claimed "deletes exactly the rows whose block
stamp is ≥ b" is false for positions. -/
theorem c2_revert_deletes_positions_by_timestamp :
    c2Before.positions.map
        (fun p => (p.market_id, p.borrower, p.collateral, p.last_updated))
      = [("M1", "B1", (1000 : Int), 1000)] ∧
    c2After.positions = [] ∧
    c2After.markets = c2Before.markets ∧
    c2After.oracle_prices = c2Before.oracle_prices := by decide

/-- C3: committing block 5 and block 10, reverting from 10, then
recommitting the identical block 10 leaves position (M1, B1) with
collateral 0 — the revert deleted the whole row (its timestamp 1100
exceeds the block number 10) and the replayed Borrow recreated it with a
zero collateral baseline — whereas the run that simply commits block 5
then block 10 has collateral 1000. The two final ledgers differ, refuting
reorg idempotence. -/
theorem c3_reorg_replay_diverges :
    c3Reorg.2 = none ∧ c3Direct.2 = none ∧
    c3Reorg.1.positions.map (fun p => (p.market_id, p.borrower, p.borrow_shares, p.collateral))
      = [("M1", "B1", (500 : Int), (0 : Int))] ∧
    c3Direct.1.positions.map (fun p => (p.market_id, p.borrower, p.borrow_shares, p.collateral))
      = [("M1", "B1", (500 : Int), (1000 : Int))] ∧
    c3Reorg.1 ≠ c3Direct.1 := by decide

/-- C4: Borrow of 5 shares followed by Repay of 10 shares leaves position
(M1, B1) with borrow_shares = −5 stored in the ledger and the batch
completing without any error: the delta is applied unconditionally, so no
NegativeBalance error exists and the non-negativity invariant fails. -/
theorem c4_negative_balance_stored_without_error :
    c4Step.err = none ∧ c4Step.ack = some 5 ∧
    c4Step.db.positions.map
        (fun p => (p.market_id, p.borrower, p.borrow_shares, p.collateral))
      = [("M1", "B1", (-5 : Int), (0 : Int))] := by decide

/-- C5: each statement autocommits — there is no per-block transaction.
When block 6's second event (a duplicate CreateMarket) fails after its
first event (SupplyCollateral 1000) already executed, the notification is
not acknowledged (that much matches the claim), but the first mutation
remains visible (collateral 1000), and retrying the same notification
re-applies it (collateral 2000): a mid-block failure leaves partial state
and the retry double-applies effects. -/
theorem c5_no_block_atomicity_and_retry_double_applies :
    c5Fail.err = some SqlError.duplicateKey ∧
    c5Fail.ack = none ∧
    c5Fail.db.positions.map (fun p => (p.borrower, p.collateral))
      = [("B1", (1000 : Int))] ∧
    c5Retry.db.positions.map (fun p => (p.borrower, p.collateral))
      = [("B1", (2000 : Int))] := by decide

/-- C6: with `total_borrow_shares = "0"` the metrics function does not
return an error: the f64 division yields infinity, the healthy comparison
against infinity is false, and `check_positions` classifies the position
LIQUIDATABLE — it is emitted, not excluded, and no DivisionUndefined
error exists anywhere in the computation. -/
theorem c6_zero_denominator_classified_liquidatable :
    calculate_position_metrics "500" "500" "0" "1000"
        "1000000000000000000000000000000000000" "800000000000000000"
      = Except.ok (false, F64.inf) ∧
    check_positions c6DB [c6Block] = [("M1", "B1", RiskClass.liquidatable)] := by
  decide

/-- C7: the risk computation runs in native f64, not exact fixed-point
arithmetic: for borrow_shares = 2^53
+ 1 with unit totals, unit collateral
and price = 1e36, the code's ltv is the binary64 value 2^53
(= fin 4503599627370496 1), while the spec's exact-arithmetic ltv is
2^53 + 1 — the float pipeline loses the final unit, so the computed
quantities are not exact. -/
theorem c7_metrics_computed_in_f64_not_exact :
    calculate_position_metrics "9007199254740993" "1" "1" "1"
        "1000000000000000000000000000000000000" "1000000000000000000"
      = Except.ok (false, F64.fin 4503599627370496 1) ∧
    (F64.fin 4503599627370496 1).toRat = (9007199254740992 : ℚ) ∧
    specExactLtv 9007199254740993 1 1 1 ORACLE_PRICE_SCALE
      = (9007199254740993 : ℚ) ∧
    (9007199254740992 : ℚ) ≠ (9007199254740993 : ℚ) := by
  refine ⟨by decide, ?_, ?_, by norm_num⟩
  · simp only [F64.toRat]
    norm_num
  · simp only [specExactLtv, ORACLE_PRICE_SCALE]
    norm_num

/-- C8: running the spec scenario (market created with zero aggregate
totals, position 1000 collateral / 500 shares, price 1e36 at block 10)
through the committed-chain pipeline emits the classification
LIQUIDATABLE for (M1, B1), not HEALTHY: the markets row still has zero
totals, so borrowed is 0/0 = NaN in f64 and the healthy comparison fails.
(The code also has no HEALTHY emission at all: a healthy position below
both thresholds produces no record, as `classifyMetrics` shows.) -/
theorem c8_spec_scenario_emits_liquidatable_not_healthy :
    c8Step.err = none ∧
    c8Step.emitted = [("M1", "B1", RiskClass.liquidatable)] := by decide

/-- C9: the decoder enumerates log indices per transaction receipt, so a
block with two transactions that each emit a Morpho Borrow at receipt-log
index 0 produces two accrual appends for the same market with the
identical ordering key (block 7, log index 0): the keys do not strictly
increase, and the second append fails with a duplicate-key error that
halts the batch (only the first snapshot row is stored). -/
theorem c9_receipt_local_log_index_collides :
    (decode_chain_events [c9Block]).map (fun t => t.2.1) = [0, 0] ∧
    c9Step.err = some SqlError.duplicateKey ∧
    c9Step.db.market_states.map (fun s => (s.market_id, s.block_number, s.log_index))
      = [("M1", 7, 0)] := by decide

/-- C10: if the metrics computation fails (which happens exactly when one
of the six decimal strings does not parse as a u128 — too large or
negative), the row is silently skipped: `if let Ok` drops the error, so
the row contributes no classification, and the notification's error
outcome is exactly that of the event-application phase — `check_positions`
can never abort the batch. -/
theorem c10_parse_failure_silently_skipped
    (db : DB) (blocks : List Block)
    (r : PositionRow × MarketRow × OraclePriceRow)
    (h : rowMetrics r = Except.error ()) :
    rowClassify r = none ∧
    (processNotification db ⟨none, some blocks⟩).err
      = (applyEvents db (decode_chain_events blocks)).2 := by
  constructor
  · simp [rowClassify, h]
  · simp only [processNotification]
    rcases happ : applyEvents db (decode_chain_events blocks) with ⟨db1, e⟩
    cases e <;> simp [happ]

/-- Witness for C10 at a concrete skipped row: the market's
total_borrow_assets text is 2^128, one past u128::MAX, so the parse fails,
the row is classified as nothing, and an (empty) commit's error outcome is
that of event application. -/
theorem c10_witness :
    rowMetrics c10Row = Except.error () ∧
    (rowClassify c10Row = none ∧
      (processNotification emptyDB ⟨none, some []⟩).err
        = (applyEvents emptyDB (decode_chain_events [])).2) :=
  ⟨by decide, c10_parse_failure_silently_skipped emptyDB [] c10Row (by decide)⟩
